import Mathlib

/-!
# Verification of the Taipit polling core (`custom_components/taipit`)

Shallow embedding of the adaptive polling scheduler, retry/error-classification
wrapper and time-alignment helpers of the `hass-taipit` integration, together
with theorems settling the behavioural claims about them.

Modelling conventions:

* Instants are `Int` seconds since the Unix epoch (1970-01-01T00:00:00).
  A "local" instant is the UTC instant plus a fixed host offset
  (`localOffset`, seconds); local midnights then sit at multiples of 86400
  shifted into the local frame, exactly as `datetime.replace(hour=0, ...)`
  floors an aware datetime.  Sub-second precision is not used by the code
  paths under study (reading timestamps are integer seconds).
* Python floats only appear as `total_seconds() / 60` followed by integer
  flooring; for the magnitudes involved (seconds of one day) the extra
  rounding of binary floats can never cross an integer or slot boundary,
  so the embedding uses exact integer division.
* Python exceptions become `Except`/`Option` results; a `dict` access that
  can raise `KeyError`/`TypeError` becomes a match on an `Option` field.
* Randomness (`randrange`, `randint`) becomes explicit arguments; note that
  `randrange(2, 3)` in `get_update_interval` can only produce `2`, so that
  jitter term is the literal `2`.
* Python dicts (insertion ordered) become association lists.
-/

/-! ## Constants (`const.py`)

`API_TIMEOUT`, `API_MAX_TRIES`, `API_RETRY_DELAY` are taken verbatim from
`const.py`.  `const.py` in the snapshot stores
`MIN_TIME_BETWEEN_UPDATES = timedelta(minutes=30)`; `helpers.py` uses the
constant as its number of minutes (30) in integer arithmetic, which is the
reading under which the repository's own helper tests pass, so the model
uses the minute count. -/

def API_TIMEOUT : Nat := 30

def API_MAX_TRIES : Nat := 3

def API_RETRY_DELAY : Nat := 10

def MIN_TIME_BETWEEN_UPDATES : Nat := 30

/-- Modelled from the spec: `CLOCK_DRIFT_MINUTES` is imported by
`helpers.py` but absent from the snapshot's `const.py`.  The spec describes
it as "a fixed clock-drift tolerance (a small number of minutes)"; the
helper docstrings and the test comments use 3 minutes.  None of the claims
depends on the exact value. -/
def CLOCK_DRIFT_MINUTES : Nat := 3

/-- Seconds from the Unix epoch to `datetime(2000, 1, 1)`, the anchor used
by `get_update_interval` (10957 days). -/
def epoch2000 : Int := 10957 * 86400

/-! ## Reading payloads

The readings response is a nested dict
`{"economizer": {"lastReading": {"ts_tz": int, ...}, "timezone": int, ...}}`.
Each level that the code accesses is modelled with an `Option` so that a
missing key / wrong type (Python `KeyError`/`TypeError`) is representable. -/

structure LastReading where
  ts_tz : Option Int
deriving Repr, DecidableEq

structure Economizer where
  lastReading : Option LastReading
  timezone : Option Int
deriving Repr, DecidableEq

structure Readings where
  economizer : Option Economizer
deriving Repr, DecidableEq

/-- The fields `readings["economizer"]["lastReading"]["ts_tz"]` and
`readings["economizer"]["timezone"]`; `none` when any access raises. -/
def readingsFields (r : Readings) : Option (Int × Int) :=
  match r.economizer with
  | none => none
  | some e =>
    match e.lastReading with
    | none => none
    | some lr =>
      match lr.ts_tz, e.timezone with
      | some ts, some tz => some (ts, tz)
      | _, _ => none

/-! ## Meter records and snapshots (`coordinator.py` data model)

A meter record is the per-meter dict: `"info"` (the short meter dict from
discovery, opaque here), `"extended"` (static info, opaque), the merged
readings keys (`"economizer"` ...), and the derived `"last_update_time"`. -/

structure MeterRecord where
  info : Nat
  extended : Option Nat
  readings : Option Readings
  last_update_time : Option Int
deriving Repr, DecidableEq

/-- The coordinator's snapshot: the insertion-ordered dict of meter id to
meter record. -/
abbrev Snapshot := List (Nat × MeterRecord)

/-! ## Helpers (`helpers.py`) -/

/-- `utc_from_timestamp_tz`: `dt.utc_from_timestamp(timestamp) -
timedelta(hours=hours)`, on epoch seconds. -/
def utc_from_timestamp_tz (timestamp : Int) (hours : Int) : Int :=
  timestamp - hours * 3600

/-- `get_next_meter_report_time`, with the grid period (minutes) as an
explicit first argument; the source reads it from
`MIN_TIME_BETWEEN_UPDATES`.  `t` is a local instant (epoch seconds in the
local frame).  `midnight` is `replace(hour=0, minute=0, second=0,
microsecond=0)`; `int(minutes_since_midnight // P)` equals Nat division of
the seconds since midnight by `60 * P`. -/
def get_next_meter_report_time (P : Nat) (t : Int) : Int :=
  let midnight := t - t % 86400
  let secondsSinceMidnight := (t % 86400).toNat
  let current_slot := secondsSinceMidnight / (60 * P)
  let next_slot_minutes := (current_slot + 1) * P
  if next_slot_minutes ≥ 1440 then
    (midnight + 86400) + ((next_slot_minutes : Int) - 1440) * 60
  else
    midnight + (next_slot_minutes : Int) * 60

/-- `get_update_interval` (grid-aligned fallback interval, seconds).
`now` is a local instant; `jitterSeconds` stands for `randrange(0, 60)`.
The minute jitter `randrange(2, 3)` is always `2`.  The result is the
`total_seconds()` of the returned `timedelta`. -/
def get_update_interval (now : Int) (jitterSeconds : Nat) : Int :=
  let total_minutes := (now - epoch2000) / 60
  let minutes_to_next_time :=
    (MIN_TIME_BETWEEN_UPDATES : Int) - total_minutes % (MIN_TIME_BETWEEN_UPDATES : Int)
  (minutes_to_next_time + 2) * 60 + (jitterSeconds : Int)

/-- `get_next_update_time` for one meter dict: derive the last reading
instant from the merged readings payload, convert to local
(`dt.as_local` = add the host offset `off`), align to the next grid slot
and add the drift buffer.  `none` models the `KeyError`/`TypeError` raised
when the meter dict lacks the merged readings fields. -/
def get_next_update_time (off : Int) (m : MeterRecord) : Option Int :=
  match m.readings with
  | none => none
  | some r =>
    match readingsFields r with
    | none => none
    | some (ts, tz) =>
      let last_reading := utc_from_timestamp_tz ts tz + off
      some (get_next_meter_report_time MIN_TIME_BETWEEN_UPDATES last_reading
        + 60 * (CLOCK_DRIFT_MINUTES : Int))

/-- The `for meter_data in data.values()` loop of `get_smart_update_interval`:
running minimum of the usable expected times, skipping meters whose
computation raises. -/
def earliestNextAux (off : Int) : Option Int → List (Nat × MeterRecord) → Option Int
  | acc, [] => acc
  | acc, (_, m) :: rest =>
    match get_next_update_time off m with
    | none => earliestNextAux off acc rest
    | some t =>
      match acc with
      | none => earliestNextAux off (some t) rest
      | some a => earliestNextAux off (some (if t < a then t else a)) rest

/-- `get_smart_update_interval` (seconds).  `jSec` is the fallback's
`randrange(0, 60)`, `jSmart` the smart branch's `randrange(30, 90)`. -/
def get_smart_update_interval (off now : Int) (jSec jSmart : Nat)
    (data : Snapshot) : Int :=
  match earliestNextAux off none data with
  | some e => if now < e then (e - now) + (jSmart : Int) else get_update_interval now jSec
  | none => get_update_interval now jSec

/-! ## Calendar arithmetic (for the end-to-end claim)

Days from the Unix epoch of a proleptic-Gregorian civil date
(Howard Hinnant's `days_from_civil` algorithm), used only to state concrete
UTC instants such as `2023-11-14T19:13:20Z` honestly. -/

def days_from_civil (y m d : Nat) : Int :=
  let y' := if m ≤ 2 then y - 1 else y
  let era := y' / 400
  let yoe := y' % 400
  let mp := (m + 9) % 12
  let doy := (153 * mp + 2) / 5 + d - 1
  let doe := yoe * 365 + yoe / 4 - yoe / 100 + doy
  (era * 146097 + doe : Int) - 719468

/-- Epoch seconds of a civil UTC datetime. -/
def epochOf (y m d hh mi ss : Nat) : Int :=
  days_from_civil y m d * 86400 + ((hh * 3600 + mi * 60 + ss : Nat) : Int)

/-! ## Retry wrapper (`decorators.py`)

The wrapped coroutine `func` is modelled by the outcome of each of its
invocations: `f n` is what the `n`-th call (1-based) does.  Exception
instances are identified by a `Nat` tag so that "the original cause is
attached" is expressible.  `TaipitError` and `aiohttp.ClientError` land in
the same `except` arm and are modelled by one constructor. -/

inductive CallResult (α : Type) where
  | success (a : α)
  | authError (e : Nat)
  | timeoutError (e : Nat)
  | apiError (e : Nat)
deriving Repr, DecidableEq

/-- Outcome of one `async_retry`-wrapped invocation.  `authError e` is the
re-raised original `TaipitAuthError`; `exhausted c` is the
`TaipitError("Failed after ...")` raised `from last_error = c`. -/
inductive RetryOutcome (α : Type) where
  | ok (a : α)
  | authError (e : Nat)
  | exhausted (lastCause : Option Nat)
deriving Repr, DecidableEq

/-- Whether a call outcome lands in one of the retried `except` arms. -/
def isTransient {α : Type} : CallResult α → Bool
  | .timeoutError _ => true
  | .apiError _ => true
  | _ => false

/-- The exception raised by a transient call outcome, if any. -/
def causeOf {α : Type} : CallResult α → Option Nat
  | .timeoutError e => some e
  | .apiError e => some e
  | _ => none

/-- The `while True` loop of `async_retry`'s `wrapper`.  `tries0` is the
value of `tries` before the `tries += 1` at the top of the iteration;
`api_timeout` and `api_retry_delay` are the loop-carried budgets;
`jit n` models the `randint(0, API_RETRY_DELAY)` drawn after attempt `n`.
Returns the outcome together with the list of `asyncio.timeout` budgets
the attempts ran under (so its length is the number of invocations of
`func`).  The loop's `tries >= API_MAX_TRIES` exit check is carried as the
structurally decreasing counter `fuel = API_MAX_TRIES - tries`, so
`fuel = 0` is exactly the source's `tries >= API_MAX_TRIES`. -/
def asyncRetryGo {α : Type} (f : Nat → CallResult α) (jit : Nat → Nat) :
    Nat → Nat → Nat → Nat → RetryOutcome α × List Nat
  | fuel, tries0, api_timeout, api_retry_delay =>
    let tries := tries0 + 1
    match f tries with
    | .success a => (.ok a, [api_timeout])
    | .authError e => (.authError e, [api_timeout])
    | .timeoutError e =>
      match fuel with
      | 0 => (.exhausted (some e), [api_timeout])
      | fuel' + 1 =>
        let r := asyncRetryGo f jit fuel' tries (tries * API_TIMEOUT)
          (api_retry_delay + API_RETRY_DELAY + jit tries)
        (r.1, api_timeout :: r.2)
    | .apiError e =>
      match fuel with
      | 0 => (.exhausted (some e), [api_timeout])
      | fuel' + 1 =>
        let r := asyncRetryGo f jit fuel' tries api_timeout
          (api_retry_delay + API_RETRY_DELAY + jit tries)
        (r.1, api_timeout :: r.2)

/-- `async_retry`: run the loop from `tries = 0`, `api_timeout =
API_TIMEOUT`, `api_retry_delay = API_RETRY_DELAY` (and accordingly
`fuel = API_MAX_TRIES - 1`, as the first iteration has `tries = 1`). -/
def async_retry {α : Type} (f : Nat → CallResult α) (jit : Nat → Nat) :
    RetryOutcome α × List Nat :=
  asyncRetryGo f jit (API_MAX_TRIES - 1) 0 API_TIMEOUT API_RETRY_DELAY

/-- Coordinator-facing failure after `async_api_request_handler`'s mapping:
`TaipitAuthError → ConfigEntryAuthFailed from exc`,
`TaipitError → UpdateFailed from exc` (for the exhausted wrapper error the
transitive cause is the last transient exception). -/
inductive HandlerOutcome (α : Type) where
  | ok (a : α)
  | configEntryAuthFailed (cause : Nat)
  | updateFailed (cause : Option Nat)
deriving Repr, DecidableEq

/-- `async_api_request_handler`: retry, then map the escaping exception. -/
def async_api_request_handler {α : Type} (f : Nat → CallResult α)
    (jit : Nat → Nat) : HandlerOutcome α × List Nat :=
  match async_retry f jit with
  | (.ok a, tr) => (.ok a, tr)
  | (.authError e, tr) => (.configEntryAuthFailed e, tr)
  | (.exhausted c, tr) => (.updateFailed c, tr)

/-- Statement-side schedule for the amended timeout-budget claim: the
budget of attempt `i + 1` (0-based `i`).  The first attempt runs under
`API_TIMEOUT`; after a `TimeoutError` on attempt `n` the next attempt runs
under `n * API_TIMEOUT`; after any other transient error the budget is
unchanged. -/
def budgetSchedule {α : Type} (f : Nat → CallResult α) : Nat → Nat
  | 0 => API_TIMEOUT
  | n + 1 =>
    match f (n + 1) with
    | .timeoutError _ => (n + 1) * API_TIMEOUT
    | _ => budgetSchedule f n

/-! ## Coordinator (`coordinator.py`)

`_async_update_data` is modelled as a function of the coordinator state and
an environment giving the (handler-mapped) result of each API call plus the
cycle's wall clock and jitter draws.  The crucial aliasing of the source is
kept: in the cached path `_data = self.data` is the *same dict* as the
published snapshot, so `_data[meter_id].update(readings)` mutates the
published snapshot in place; in the discovery path `_data` is a fresh dict
and the published snapshot is only replaced when the cycle returns. -/

inductive ApiFail where
  | authFailed (cause : Nat)
  | updateFailed (cause : Nat)
deriving Repr, DecidableEq

/-- What escapes `_async_update_data`: `ConfigEntryAuthFailed`,
`UpdateFailed` (with the transitive original cause, `none` for the
"No meters retrieved" failure raised directly), or the unguarded
`KeyError`/`TypeError` from `readings["economizer"]["lastReading"]["ts_tz"]`
on a malformed readings payload. -/
inductive CycleError where
  | configEntryAuthFailed (cause : Nat)
  | updateFailed (cause : Option Nat)
  | keyError
deriving Repr, DecidableEq

def ofApiFail : ApiFail → CycleError
  | .authFailed c => .configEntryAuthFailed c
  | .updateFailed c => .updateFailed (some c)

/-- Environment of one cycle: results of `_async_get_meters` (as the
(id, info) pairs of the dict comprehension, ids assumed distinct),
`_async_get_meter_info`, `_async_get_meter_readings` — all after the
`async_api_request_handler` mapping — plus the clock and jitter draws the
interval planner consumes in the `finally` block. -/
structure Env where
  meters : Except ApiFail (List (Nat × Nat))
  meterInfo : Nat → Except ApiFail Nat
  meterReadings : Nat → Except ApiFail Readings
  now : Int
  localOffset : Int
  jSec : Nat
  jSmart : Nat

structure CoordState where
  data : Option Snapshot
  force_next_update : Bool
  update_interval : Int
deriving Repr, DecidableEq

/-- The `for meter_id in _data` extended-info loop.  On failure returns the
escaping error together with the partially updated map (meters processed
before the failing one carry their `"extended"` entry). -/
def fetchInfoLoop (env : Env) : Snapshot → Except (CycleError × Snapshot) Snapshot
  | [] => .ok []
  | (mid, m) :: rest =>
    match env.meterInfo mid with
    | .error e => .error (ofApiFail e, (mid, m) :: rest)
    | .ok x =>
      let m' := { m with extended := some x }
      match fetchInfoLoop env rest with
      | .ok rest' => .ok ((mid, m') :: rest')
      | .error (er, rest') => .error (er, (mid, m') :: rest')

/-- The readings loop.  `_data[meter_id].update(readings)` happens before
the `last_update_time` derivation, so on a malformed payload the merged
readings stay in the record while `last_update_time` is not set.  On
failure returns the escaping error and the partially updated map. -/
def fetchReadingsLoop (env : Env) : Snapshot → Except (CycleError × Snapshot) Snapshot
  | [] => .ok []
  | (mid, m) :: rest =>
    match env.meterReadings mid with
    | .error e => .error (ofApiFail e, (mid, m) :: rest)
    | .ok r =>
      let m1 := { m with readings := some r }
      match readingsFields r with
      | none => .error (.keyError, (mid, m1) :: rest)
      | some (ts, tz) =>
        let m2 := { m1 with last_update_time := some (utc_from_timestamp_tz ts tz) }
        match fetchReadingsLoop env rest with
        | .ok rest' => .ok ((mid, m2) :: rest')
        | .error (er, rest') => .error (er, (mid, m2) :: rest')

/-- The discovery branch of `_async_update_data` (`_data is None or
self.force_next_update`).  Result: the value of the `_data` variable when
the `finally` block runs, whether `_data` aliases `self.data`, and the
try-block outcome. -/
def runDiscovery (st : CoordState) (env : Env) :
    Option Snapshot × Bool × Except CycleError Snapshot :=
  match env.meters with
  | .error e => (st.data, true, .error (ofApiFail e))
  | .ok ms =>
    let fresh : Snapshot := ms.map (fun p => (p.1, ⟨p.2, none, none, none⟩))
    if fresh.isEmpty then
      (some fresh, false, .error (.updateFailed none))
    else
      match fetchInfoLoop env fresh with
      | .error (e, part) => (some part, false, .error e)
      | .ok d1 =>
        match fetchReadingsLoop env d1 with
        | .ok d2 => (some d2, false, .ok d2)
        | .error (e, part) => (some part, false, .error e)

/-- The interval computation of the `finally` block: `if _data:` use the
smart planner on it, `else` (empty dict or `None`) the grid-aligned
fallback. -/
def intervalFor (env : Env) : Option Snapshot → Int
  | some w =>
    if w.isEmpty then get_update_interval env.now env.jSec
    else get_smart_update_interval env.localOffset env.now env.jSec env.jSmart w
  | none => get_update_interval env.now env.jSec

/-- Result of one `_async_update_data` cycle: the coordinator state
afterwards (`self.data`, `self.force_next_update`, `self.update_interval`),
the try-block outcome (return value or escaping exception), whether the
cycle ran discovery (consulted `_async_get_meters`), and the value of the
working `_data` variable at the `finally` block. -/
structure CycleResult where
  state : CoordState
  outcome : Except CycleError Snapshot
  ranDiscovery : Bool
  working : Option Snapshot
deriving Repr

/-- `_async_update_data`.  On a successful return the framework publishes
the returned map as `self.data`; on an exception `self.data` keeps its
previous object — which, in the cached path, is the very dict the loop
mutated in place. -/
def updateData (st : CoordState) (env : Env) : CycleResult :=
  let tr :=
    match st.data, st.force_next_update with
    | none, _ => (runDiscovery st env, true)
    | some _, true => (runDiscovery st env, true)
    | some d, false =>
      (match fetchReadingsLoop env d with
        | .ok d' => (some d', true, Except.ok d')
        | .error (e, part) => (some part, true, Except.error e), false)
  let working := tr.1.1
  let aliased := tr.1.2.1
  let outcome := tr.1.2.2
  let newData : Option Snapshot :=
    match outcome with
    | .ok d => some d
    | .error _ => if aliased then working else st.data
  let newInterval : Int := intervalFor env working
  { state := { data := newData, force_next_update := false, update_interval := newInterval },
    outcome := outcome, ranDiscovery := tr.2, working := working }

/-- `async_force_refresh`: set the flag, then run a cycle. -/
def async_force_refresh (st : CoordState) (env : Env) : CycleResult :=
  updateData { st with force_next_update := true } env

/-- Statement-side abbreviation for the amended snapshot-atomicity claim:
what the published snapshot becomes in the cached path — the fully updated
map on success, the partially updated map on failure (the readings merged
before the failure remain visible). -/
def mergedOrPartial (env : Env) (d : Snapshot) : Snapshot :=
  match fetchReadingsLoop env d with
  | .ok d' => d'
  | .error (_, part) => part

/-- A failure surfaced to the host as "temporarily unavailable, retry
later" (`UpdateFailed`), the category shared by exhausted transient errors
and the empty-discovery failure. -/
def isRetryableFailure : Except CycleError Snapshot → Bool
  | .error (.updateFailed _) => true
  | _ => false

/-! ## Concrete cycle scenarios (used by counterexamples and witnesses) -/

/-- A well-formed readings payload whose last reading is at epoch
1699989200 (2023-11-14T19:13:20Z), reported offset 0. -/
def sampleReadings : Readings := ⟨some ⟨some ⟨some 1699989200⟩, some 0⟩⟩

def meterOne : MeterRecord := ⟨10, some 100, none, none⟩

def meterTwo : MeterRecord := ⟨20, some 200, none, none⟩

/-- Coordinator state holding a published two-meter snapshot, no forced
refresh pending. -/
def cachedState : CoordState := ⟨some [(1, meterOne), (2, meterTwo)], false, 0⟩

/-- Environment in which meter 1's readings fetch succeeds and meter 2's
fetch fails with an exhausted-retries `UpdateFailed` (cause 5). -/
def splitEnv : Env :=
  { meters := .error (.updateFailed 99)
    meterInfo := fun _ => .ok 0
    meterReadings := fun mid =>
      if mid = 1 then .ok sampleReadings else .error (.updateFailed 5)
    now := 1699989300, localOffset := 0, jSec := 0, jSmart := 30 }

/-- Meter 1 after the in-place merge of `sampleReadings`. -/
def meterOneUpdated : MeterRecord :=
  ⟨10, some 100, some sampleReadings, some 1699989200⟩

/-- Coordinator state holding a published one-meter snapshot whose next
expected reading (1699990380) is in the future of `splitEnv.now`, with a
forced refresh pending. -/
def forcedState : CoordState := ⟨some [(1, meterOneUpdated)], true, 0⟩

/-- Forced-refresh environment whose discovery returns zero meters. -/
def emptyDiscoveryEnv : Env :=
  { meters := .ok []
    meterInfo := fun _ => .ok 0
    meterReadings := fun _ => .error (.updateFailed 5)
    now := 1699989300, localOffset := 0, jSec := 0, jSmart := 30 }

/-! # Theorems -/

/-- C2: after every cycle — whichever branch it takes and whether it
returns or raises (the outcome is reified, the state construction models
the `finally` block) — `force_next_update` is `false`; in particular also
after a `async_force_refresh` cycle, which sets the flag first.  The flag
never survives a cycle boundary. -/
theorem c2_force_flag_cleared (st : CoordState) (env : Env) :
    (updateData st env).state.force_next_update = false ∧
    (async_force_refresh st env).state.force_next_update = false :=
  ⟨rfl, rfl⟩

/-- C4 counterexample: the claim says a falsy/empty successful result is
treated as a transient remote error and retried; but `async_retry` has no
result inspection — a function whose every call returns the empty value is
invoked exactly once and the empty value is returned (trace length 1, not
more). -/
theorem c4_counterexample :
    ¬ (∀ (f : Nat → CallResult (List Nat)) (jit : Nat → Nat),
        f 1 = .success [] → 1 < (async_retry f jit).2.length) := by
  intro hcl
  exact absurd (hcl (fun _ => .success []) (fun _ => 0) rfl) (by decide)

/-- C4 amended: the retry wrapper never inspects the result; any successful
first call — in particular one returning a falsy/empty value — ends the
loop immediately, the wrapper returning that value after exactly one
invocation under the base timeout.  (Empty *discovery* results are handled
by the coordinator, which raises `UpdateFailed` for the cycle without any
wrapper-level retry; see the C9 development.) -/
theorem c4_amended (f : Nat → CallResult (List Nat)) (jit : Nat → Nat)
    (a : List Nat) (h : f 1 = .success a) :
    async_retry f jit = (.ok a, [API_TIMEOUT]) := by
  simp [async_retry, asyncRetryGo, h]

/-- Witness for `c4_amended` at the always-empty function. -/
theorem c4_amended_witness :
    async_retry (fun _ => CallResult.success ([] : List Nat)) (fun _ => 0)
      = (.ok [], [API_TIMEOUT]) :=
  c4_amended (fun _ => .success []) (fun _ => 0) [] rfl

theorem updateData_interval (st : CoordState) (env : Env) :
    (updateData st env).state.update_interval
      = intervalFor env (updateData st env).working := rfl

theorem runDiscovery_aliased (st : CoordState) (env : Env) :
    (runDiscovery st env).2.1 = true → (runDiscovery st env).1 = st.data := by
  unfold runDiscovery
  cases env.meters with
  | error e => simp
  | ok ms =>
    dsimp only
    split
    · simp
    · split
      · simp
      · split <;> simp

theorem runDiscovery_ok (st : CoordState) (env : Env) (d2 : Snapshot) :
    (runDiscovery st env).2.2 = .ok d2 → (runDiscovery st env).1 = some d2 := by
  unfold runDiscovery
  cases env.meters with
  | error e => simp
  | ok ms =>
    dsimp only
    split
    · simp
    · split
      · simp
      · split <;> simp_all

/-- Cached path (`_data = self.data`, no discovery): the published
snapshot after the cycle is the in-place updated working dict — fully
updated on success, partially updated on failure. -/
theorem updateData_cached (st : CoordState) (env : Env) (d : Snapshot)
    (hd : st.data = some d) (hf : st.force_next_update = false) :
    (updateData st env).state.data = some (mergedOrPartial env d) ∧
    (updateData st env).working = some (mergedOrPartial env d) ∧
    (updateData st env).ranDiscovery = false := by
  obtain ⟨sd, sf, si⟩ := st
  simp only [CoordState.data] at hd
  simp only [CoordState.force_next_update] at hf
  subst hd; subst hf
  cases hm : fetchReadingsLoop env d with
  | ok d2 => simp [updateData, mergedOrPartial, hm]
  | error p =>
    obtain ⟨e, part⟩ := p
    simp [updateData, mergedOrPartial, hm]

/-- Discovery path (`_data is None or self.force_next_update`): the cycle
consults `_async_get_meters`; on any failure the published snapshot is
left unchanged (either nothing was mutated yet, or the working dict was a
fresh unpublished one); on success the fresh dict is published. -/
theorem updateData_discovery (st : CoordState) (env : Env)
    (h : st.data = none ∨ st.force_next_update = true) :
    (updateData st env).ranDiscovery = true ∧
    (updateData st env).working = (runDiscovery st env).1 ∧
    (updateData st env).outcome = (runDiscovery st env).2.2 ∧
    (∀ e, (runDiscovery st env).2.2 = .error e → (updateData st env).state.data = st.data) ∧
    (∀ d2, (runDiscovery st env).2.2 = .ok d2 → (updateData st env).state.data = some d2) := by
  obtain ⟨sd, sf, si⟩ := st
  have hsel : (updateData ⟨sd, sf, si⟩ env).ranDiscovery = true ∧
      (updateData ⟨sd, sf, si⟩ env).working = (runDiscovery ⟨sd, sf, si⟩ env).1 ∧
      (updateData ⟨sd, sf, si⟩ env).outcome = (runDiscovery ⟨sd, sf, si⟩ env).2.2 ∧
      (updateData ⟨sd, sf, si⟩ env).state.data =
        (match (runDiscovery ⟨sd, sf, si⟩ env).2.2 with
          | .ok d2 => some d2
          | .error _ =>
            if (runDiscovery ⟨sd, sf, si⟩ env).2.1 then (runDiscovery ⟨sd, sf, si⟩ env).1
            else sd) := by
    rcases h with h | h
    · simp only [CoordState.data] at h; subst h
      exact ⟨rfl, rfl, rfl, rfl⟩
    · simp only [CoordState.force_next_update] at h; subst h
      cases sd <;> exact ⟨rfl, rfl, rfl, rfl⟩
  refine ⟨hsel.1, hsel.2.1, hsel.2.2.1, ?_, ?_⟩
  · intro e he
    rw [hsel.2.2.2, he]
    by_cases ha : (runDiscovery ⟨sd, sf, si⟩ env).2.1 = true
    · have := runDiscovery_aliased ⟨sd, sf, si⟩ env ha
      simp [ha, this]
    · simp [ha]
  · intro d2 hok
    rw [hsel.2.2.2, hok]

/-- Successful cycles publish exactly the working dict. -/
theorem updateData_ok (st : CoordState) (env : Env) (d2 : Snapshot)
    (h : (updateData st env).outcome = .ok d2) :
    (updateData st env).working = some d2 ∧ (updateData st env).state.data = some d2 := by
  obtain ⟨sd, sf, si⟩ := st
  have hdisc : ∀ hyp : (⟨sd, sf, si⟩ : CoordState).data = none ∨
      (⟨sd, sf, si⟩ : CoordState).force_next_update = true,
      (updateData ⟨sd, sf, si⟩ env).working = some d2 ∧
      (updateData ⟨sd, sf, si⟩ env).state.data = some d2 := by
    intro hyp
    have hd := updateData_discovery ⟨sd, sf, si⟩ env hyp
    have hrun : (runDiscovery ⟨sd, sf, si⟩ env).2.2 = .ok d2 := by
      rw [← hd.2.2.1]; exact h
    exact ⟨hd.2.1.trans (runDiscovery_ok _ env d2 hrun), hd.2.2.2.2 d2 hrun⟩
  cases sd with
  | none => exact hdisc (Or.inl rfl)
  | some d =>
    cases sf with
    | true => exact hdisc (Or.inr rfl)
    | false =>
      cases hm : fetchReadingsLoop env d with
      | ok d' =>
        have hout : (updateData ⟨some d, false, si⟩ env).outcome = .ok d' := by
          simp [updateData, hm]
        rw [hout] at h
        obtain rfl : d' = d2 := by simpa using h
        constructor <;> simp [updateData, hm]
      | error p =>
        obtain ⟨e, part⟩ := p
        have hout : (updateData ⟨some d, false, si⟩ env).outcome = .error e := by
          simp [updateData, hm]
        rw [hout] at h
        simp at h

/-- C1 counterexample: with a published two-meter snapshot and no forced
refresh, a cycle in which meter 1's readings fetch succeeds and meter 2's
fails raises `UpdateFailed` — yet the published snapshot now shows meter 1
with its freshly merged readings and derived time while meter 2 is
untouched: a partially updated meter record is visible to snapshot
consumers, and the previous snapshot was not retained unchanged. -/
theorem c1_counterexample :
    (updateData cachedState splitEnv).outcome = .error (.updateFailed (some 5)) ∧
    (updateData cachedState splitEnv).state.data
      = some [(1, meterOneUpdated), (2, meterTwo)] ∧
    some [(1, meterOneUpdated), (2, meterTwo)] ≠ cachedState.data :=
  ⟨rfl, rfl, by decide⟩

/-- C1 amended: snapshot atomicity holds only for cycles that run
discovery (first run or forced refresh): those work on a fresh dict and a
failure leaves the published snapshot unchanged.  In the cached path the
readings are merged *in place* into the published snapshot, so the visible
snapshot after the cycle is the working dict whether the cycle succeeded
or failed — on failure the meters processed before the failing one retain
their freshly merged readings. -/
theorem c1_amended (st : CoordState) (env : Env) :
    ((st.data = none ∨ st.force_next_update = true) →
      ∀ e, (updateData st env).outcome = .error e →
        (updateData st env).state.data = st.data) ∧
    (∀ d, st.data = some d → st.force_next_update = false →
      (updateData st env).state.data = some (mergedOrPartial env d)) := by
  constructor
  · intro h e he
    have hd := updateData_discovery st env h
    exact hd.2.2.2.1 e (by rw [← hd.2.2.1]; exact he)
  · intro d hd hf
    exact (updateData_cached st env d hd hf).1

/-- Witness for `c1_amended` at the concrete two-meter scenario. -/
theorem c1_amended_witness :
    (updateData cachedState splitEnv).state.data
      = some (mergedOrPartial splitEnv [(1, meterOne), (2, meterTwo)]) :=
  (c1_amended cachedState splitEnv).2 [(1, meterOne), (2, meterTwo)] rfl rfl

/-- C9: a cycle consults discovery iff no snapshot exists or the
force-refresh flag is set; and an empty discovery result raises
`UpdateFailed` (the same host-visible "temporarily unavailable" category
as an exhausted transient error, `isRetryableFailure`) and publishes no
snapshot. -/
theorem c9_discovery_conditionality (st : CoordState) (env : Env) :
    ((updateData st env).ranDiscovery = (st.data.isNone || st.force_next_update)) ∧
    ((st.data = none ∨ st.force_next_update = true) → env.meters = .ok [] →
      (updateData st env).outcome = .error (.updateFailed none) ∧
      isRetryableFailure (updateData st env).outcome = true ∧
      (updateData st env).state.data = st.data) := by
  constructor
  · obtain ⟨sd, sf, si⟩ := st
    cases sd <;> cases sf <;> rfl
  · intro h hm
    have hd := updateData_discovery st env h
    have hrun : (runDiscovery st env).2.2 = .error (.updateFailed none) := by
      simp [runDiscovery, hm]
    refine ⟨?_, ?_, hd.2.2.2.1 _ hrun⟩
    · rw [hd.2.2.1, hrun]
    · rw [hd.2.2.1, hrun]; rfl

/-- Witness for `c9_discovery_conditionality`: forced refresh with prior
snapshot, discovery returns zero meters. -/
theorem c9_witness :
    (updateData forcedState emptyDiscoveryEnv).outcome = .error (.updateFailed none) ∧
    isRetryableFailure (updateData forcedState emptyDiscoveryEnv).outcome = true ∧
    (updateData forcedState emptyDiscoveryEnv).state.data = forcedState.data :=
  (c9_discovery_conditionality forcedState emptyDiscoveryEnv).2 (Or.inr rfl) rfl

/-- C10 counterexample: the claim says a failed cycle recomputes the
interval from the *current* snapshot when one exists and is non-empty.
Here a forced cycle with a non-empty published snapshot fails on empty
discovery; the snapshot is retained (non-empty), but the interval is the
grid fallback (1020 s) computed from the empty working dict, not the smart
interval the planner yields on the current snapshot (1110 s). -/
theorem c10_counterexample :
    (updateData forcedState emptyDiscoveryEnv).state.data = some [(1, meterOneUpdated)] ∧
    (updateData forcedState emptyDiscoveryEnv).state.update_interval = 1020 ∧
    get_smart_update_interval emptyDiscoveryEnv.localOffset emptyDiscoveryEnv.now
      emptyDiscoveryEnv.jSec emptyDiscoveryEnv.jSmart [(1, meterOneUpdated)] = 1110 ∧
    (1020 : Int) ≠ 1110 :=
  ⟨rfl, rfl, rfl, by decide⟩

/-- C10 amended: after every cycle the interval is recomputed in the
`finally` step from the cycle's *working* map (`intervalFor`: smart
planner when non-empty, grid fallback otherwise).  The working map is the
freshly published snapshot on success, and the prior snapshot (with any
partial in-place merges) in cached cycles; but in discovery cycles it is
the discovery result itself — on failure a fresh *unpublished* map (or the
empty one), not the retained current snapshot. -/
theorem c10_amended (st : CoordState) (env : Env) :
    ((updateData st env).state.update_interval
      = intervalFor env (updateData st env).working) ∧
    (∀ d2, (updateData st env).outcome = .ok d2 →
      (updateData st env).working = some d2 ∧
      (updateData st env).state.data = some d2) ∧
    (∀ d, st.data = some d → st.force_next_update = false →
      (updateData st env).working = some (mergedOrPartial env d)) ∧
    ((st.data = none ∨ st.force_next_update = true) →
      (updateData st env).working = (runDiscovery st env).1 ∧
      (∀ e, (runDiscovery st env).2.2 = .error e →
        (updateData st env).state.data = st.data)) := by
  refine ⟨rfl, ?_, ?_, ?_⟩
  · intro d2 h
    exact updateData_ok st env d2 h
  · intro d hd hf
    exact (updateData_cached st env d hd hf).2.1
  · intro h
    have hd := updateData_discovery st env h
    exact ⟨hd.2.1, hd.2.2.2.1⟩

/-- Witness for `c10_amended` at the forced empty-discovery scenario. -/
theorem c10_amended_witness :
    (updateData forcedState emptyDiscoveryEnv).state.update_interval
      = intervalFor emptyDiscoveryEnv (updateData forcedState emptyDiscoveryEnv).working ∧
    (updateData forcedState emptyDiscoveryEnv).working
      = (runDiscovery forcedState emptyDiscoveryEnv).1 :=
  ⟨(c10_amended forcedState emptyDiscoveryEnv).1,
    ((c10_amended forcedState emptyDiscoveryEnv).2.2.2 (Or.inr rfl)).1⟩

/-- C3: retry-wrapper invocation counts.  (1) a first-call
`TaipitAuthError` escapes after exactly one invocation, the original
exception itself from `async_retry` and as the cause of
`ConfigEntryAuthFailed` from the handler; (2) two transient errors then a
success give exactly three invocations and the success value; (3) three
transient errors give exactly three invocations and the exhausted
`TaipitError` wrapping the last cause (surfaced as `UpdateFailed` with
that cause by the handler). -/
theorem c3_retry_invocation_counts (f : Nat → CallResult Nat) (jit : Nat → Nat) :
    (∀ e, f 1 = .authError e →
      async_retry f jit = (.authError e, [API_TIMEOUT]) ∧
      async_api_request_handler f jit = (.configEntryAuthFailed e, [API_TIMEOUT])) ∧
    (∀ a, isTransient (f 1) = true → isTransient (f 2) = true → f 3 = .success a →
      (async_retry f jit).1 = .ok a ∧ (async_retry f jit).2.length = 3) ∧
    (isTransient (f 1) = true → isTransient (f 2) = true → isTransient (f 3) = true →
      (async_retry f jit).1 = .exhausted (causeOf (f 3)) ∧
      (async_retry f jit).2.length = 3 ∧
      (async_api_request_handler f jit).1 = .updateFailed (causeOf (f 3))) := by
  refine ⟨?_, ?_, ?_⟩
  · intro e h
    constructor
    · simp [async_retry, asyncRetryGo, h]
    · simp [async_api_request_handler, async_retry, asyncRetryGo, h]
  · intro a h1 h2 h3
    cases hf1 : f 1 <;> simp [hf1, isTransient] at h1 <;>
      cases hf2 : f 2 <;> simp [hf2, isTransient] at h2 <;>
        constructor <;>
          simp [async_retry, asyncRetryGo, API_MAX_TRIES, hf1, hf2, h3]
  · intro h1 h2 h3
    cases hf1 : f 1 <;> simp [hf1, isTransient] at h1 <;>
      cases hf2 : f 2 <;> simp [hf2, isTransient] at h2 <;>
        cases hf3 : f 3 <;> simp [hf3, isTransient] at h3 <;>
          refine ⟨?_, ?_, ?_⟩ <;>
            simp [async_retry, async_api_request_handler, asyncRetryGo, API_MAX_TRIES,
              causeOf, hf1, hf2, hf3]

/-- Witness for `c3_retry_invocation_counts`: a function failing with an
API error, then a timeout, then succeeding with 7, is called three times
and its success value is returned. -/
theorem c3_witness :
    (async_retry (fun n => if n = 1 then (CallResult.apiError 1 : CallResult Nat)
        else if n = 2 then .timeoutError 2 else .success 7) (fun _ => 0)).1 = .ok 7 ∧
    (async_retry (fun n => if n = 1 then (CallResult.apiError 1 : CallResult Nat)
        else if n = 2 then .timeoutError 2 else .success 7) (fun _ => 0)).2.length = 3 :=
  (c3_retry_invocation_counts
    (fun n => if n = 1 then .apiError 1 else if n = 2 then .timeoutError 2 else .success 7)
    (fun _ => 0)).2.1 7 (by decide) (by decide) (by decide)

theorem asyncRetryGo_timeout_step {α : Type} (f : Nat → CallResult α) (jit : Nat → Nat)
    (fuel' tries0 a d e : Nat) (hf : f (tries0 + 1) = .timeoutError e) :
    asyncRetryGo f jit (fuel' + 1) tries0 a d =
      ((asyncRetryGo f jit fuel' (tries0 + 1) ((tries0 + 1) * API_TIMEOUT)
          (d + API_RETRY_DELAY + jit (tries0 + 1))).1,
        a :: (asyncRetryGo f jit fuel' (tries0 + 1) ((tries0 + 1) * API_TIMEOUT)
          (d + API_RETRY_DELAY + jit (tries0 + 1))).2) := by
  conv_lhs => rw [asyncRetryGo]
  simp [hf]

theorem asyncRetryGo_api_step {α : Type} (f : Nat → CallResult α) (jit : Nat → Nat)
    (fuel' tries0 a d e : Nat) (hf : f (tries0 + 1) = .apiError e) :
    asyncRetryGo f jit (fuel' + 1) tries0 a d =
      ((asyncRetryGo f jit fuel' (tries0 + 1) a
          (d + API_RETRY_DELAY + jit (tries0 + 1))).1,
        a :: (asyncRetryGo f jit fuel' (tries0 + 1) a
          (d + API_RETRY_DELAY + jit (tries0 + 1))).2) := by
  conv_lhs => rw [asyncRetryGo]
  simp [hf]

/-- Invariant of the retry loop: if the current budget equals the schedule
value for the current attempt, every attempt in the produced trace ran
under its schedule value (the budget only changes — to
`tries * API_TIMEOUT` — after a `TimeoutError`). -/
theorem asyncRetryGo_budget {α : Type} (f : Nat → CallResult α) (jit : Nat → Nat) :
    ∀ (fuel tries0 api_timeout api_retry_delay : Nat),
      api_timeout = budgetSchedule f tries0 →
      ∀ i : Nat, i < (asyncRetryGo f jit fuel tries0 api_timeout api_retry_delay).2.length →
        (asyncRetryGo f jit fuel tries0 api_timeout api_retry_delay).2.get? i
          = some (budgetSchedule f (tries0 + i)) := by
  intro fuel
  induction fuel with
  | zero =>
    intro tries0 api_timeout api_retry_delay hb i h
    cases hf : f (tries0 + 1) <;>
      (simp [asyncRetryGo, hf] at h ⊢; subst h; simpa using hb)
  | succ fuel' ih =>
    intro tries0 api_timeout api_retry_delay hb i h
    cases hf : f (tries0 + 1) with
    | success a =>
      simp [asyncRetryGo, hf] at h ⊢
      subst h; simpa using hb
    | authError e =>
      simp [asyncRetryGo, hf] at h ⊢
      subst h; simpa using hb
    | timeoutError e =>
      rw [asyncRetryGo_timeout_step f jit fuel' tries0 api_timeout api_retry_delay e hf] at h ⊢
      cases i with
      | zero => simpa using hb
      | succ j =>
        have hb' : (tries0 + 1) * API_TIMEOUT = budgetSchedule f (tries0 + 1) := by
          simp [budgetSchedule, hf]
        have h' : j < (asyncRetryGo f jit fuel' (tries0 + 1) ((tries0 + 1) * API_TIMEOUT)
            (api_retry_delay + API_RETRY_DELAY + jit (tries0 + 1))).2.length := by
          simpa using h
        have hrec := ih (tries0 + 1) ((tries0 + 1) * API_TIMEOUT)
          (api_retry_delay + API_RETRY_DELAY + jit (tries0 + 1)) hb' j h'
        rw [show tries0 + (j + 1) = tries0 + 1 + j by omega]
        simpa using hrec
    | apiError e =>
      rw [asyncRetryGo_api_step f jit fuel' tries0 api_timeout api_retry_delay e hf] at h ⊢
      cases i with
      | zero => simpa using hb
      | succ j =>
        have hb' : api_timeout = budgetSchedule f (tries0 + 1) := by
          simp [budgetSchedule, hf]; exact hb
        have h' : j < (asyncRetryGo f jit fuel' (tries0 + 1) api_timeout
            (api_retry_delay + API_RETRY_DELAY + jit (tries0 + 1))).2.length := by
          simpa using h
        have hrec := ih (tries0 + 1) api_timeout
          (api_retry_delay + API_RETRY_DELAY + jit (tries0 + 1)) hb' j h'
        rw [show tries0 + (j + 1) = tries0 + 1 + j by omega]
        simpa using hrec

/-- C5 counterexample: the claim says attempt `N` always runs under
`N * API_TIMEOUT`.  For a function timing out on every call the recorded
budgets are `[30, 30, 60]`: the second attempt runs under 30 s, not
`2 * API_TIMEOUT = 60` s, refuting the claim (as formalised: the `i`-th
trace entry equals `(i + 1) * API_TIMEOUT`) at `i = 1`. -/
theorem c5_counterexample :
    ¬ (∀ (f : Nat → CallResult Nat) (jit : Nat → Nat) (i : Nat),
        i < (async_retry f jit).2.length →
        (async_retry f jit).2.get? i = some ((i + 1) * API_TIMEOUT)) := by
  intro hcl
  have h := hcl (fun n => .timeoutError n) (fun _ => 0) 1 (by decide)
  exact absurd h (by decide)

/-- C5 amended: the first attempt runs under the base timeout; after a
`TimeoutError` on attempt `n` the next attempt's budget becomes
`n * API_TIMEOUT` (one step behind the claimed `base × attempt` schedule),
and after a non-timeout transient error the budget is left unchanged —
`budgetSchedule` captures exactly this. -/
theorem c5_amended (f : Nat → CallResult Nat) (jit : Nat → Nat) (i : Nat)
    (h : i < (async_retry f jit).2.length) :
    (async_retry f jit).2.get? i = some (budgetSchedule f i) := by
  have hmain := asyncRetryGo_budget f jit (API_MAX_TRIES - 1) 0 API_TIMEOUT API_RETRY_DELAY rfl i h
  simpa using hmain

/-- Witness for `c5_amended` at the always-timing-out function, attempt 2. -/
theorem c5_amended_witness :
    (async_retry (fun n => CallResult.timeoutError n) (fun _ => 0)
        : RetryOutcome Nat × List Nat).2.get? 1
      = some (budgetSchedule (fun n => (CallResult.timeoutError n : CallResult Nat)) 1) :=
  c5_amended (fun n => .timeoutError n) (fun _ => 0) 1 (by decide)

/-- C8: end-to-end timestamp derivation.  For `ts_tz = 1700000000` and
timezone offset 3 hours the derived last-observed-reading UTC instant is
2023-11-14T19:13:20Z (`epochOf` is the standard civil-calendar conversion),
and the expected next report time on the 30-minute grid is
2023-11-14T19:30:00Z plus the configured drift buffer
(`CLOCK_DRIFT_MINUTES`, spec-modelled as its value is absent from the
snapshot's `const.py`; the statement keeps it symbolic).  The third
conjunct runs the coordinator's readings loop on such a payload and checks
the stored derived `last_update_time`.  Host offset 0 (a grid-aligned local
zone, as in the repository's test environment). -/
theorem c8_end_to_end :
    utc_from_timestamp_tz 1700000000 3 = epochOf 2023 11 14 19 13 20 ∧
    get_next_update_time 0 ⟨0, none, some ⟨some ⟨some ⟨some 1700000000⟩, some 3⟩⟩, none⟩
      = some (epochOf 2023 11 14 19 30 0 + 60 * (CLOCK_DRIFT_MINUTES : Int)) ∧
    fetchReadingsLoop
      { meters := .error (.updateFailed 0), meterInfo := fun _ => .ok 0
        meterReadings := fun _ => .ok ⟨some ⟨some ⟨some 1700000000⟩, some 3⟩⟩
        now := 0, localOffset := 0, jSec := 0, jSmart := 30 }
      [(1, ⟨10, some 100, none, none⟩)]
      = .ok [(1, ⟨10, some 100, some ⟨some ⟨some ⟨some 1700000000⟩, some 3⟩⟩,
          some (epochOf 2023 11 14 19 13 20)⟩)] :=
  ⟨by decide, by decide, rfl⟩

/-- Both branches of the slot computation (wrap and no-wrap) produce
midnight plus `next_slot_minutes` minutes. -/
theorem gnmrt_eq (P : Nat) (t : Int) :
    get_next_meter_report_time P t
      = (t - t % 86400) + (((t % 86400).toNat / (60 * P) + 1) * P : Nat) * 60 := by
  unfold get_next_meter_report_time
  dsimp only
  split
  · push_cast; ring
  · push_cast; ring

/-- C6: for every positive grid period `P` and every local instant `t`,
the next-aligned-slot function returns an instant strictly greater than
`t` whose offset from its local midnight is (mod 1440 minutes) a multiple
of `P` minutes; and the four concrete P = 30 examples — 14:15 → 14:30,
14:00 → 14:30 (boundary exclusive), 23:45 → next-day midnight,
14:31 → 15:00 (instants as seconds of day 0). -/
theorem c6_next_aligned_slot :
    (∀ (P : Nat) (t : Int), 0 < P →
      t < get_next_meter_report_time P t ∧
      ∃ k : Nat, get_next_meter_report_time P t % 86400 = ((k * P % 1440) * 60 : Nat)) ∧
    get_next_meter_report_time 30 (14 * 3600 + 15 * 60) = 14 * 3600 + 30 * 60 ∧
    get_next_meter_report_time 30 (14 * 3600) = 14 * 3600 + 30 * 60 ∧
    get_next_meter_report_time 30 (23 * 3600 + 45 * 60) = 86400 ∧
    get_next_meter_report_time 30 (14 * 3600 + 31 * 60) = 15 * 3600 := by
  refine ⟨?_, by decide, by decide, by decide, by decide⟩
  intro P t hP
  have h60P : 0 < 60 * P := by positivity
  have hs0 : (0 : Int) ≤ t % 86400 := by omega
  have hns : (((t % 86400).toNat : Int)) = t % 86400 := Int.toNat_of_nonneg hs0
  set n : Nat := (t % 86400).toNat with hn
  set q : Nat := n / (60 * P) with hq
  have heq := gnmrt_eq P t
  have hlt : n < (q + 1) * P * 60 := by
    have h1 : n < (q + 1) * (60 * P) :=
      (Nat.div_lt_iff_lt_mul h60P).mp (Nat.lt_succ_self q)
    calc n < (q + 1) * (60 * P) := h1
      _ = (q + 1) * P * 60 := by ring
  constructor
  · rw [heq]
    have hlt' : (n : Int) < (((q + 1) * P : Nat) : Int) * 60 := by
      exact_mod_cast hlt
    rw [hns] at hlt'
    linarith
  · refine ⟨q + 1, ?_⟩
    rw [heq]
    have hms : t - t % 86400 = 86400 * (t / 86400) := by omega
    rw [hms, add_comm, Int.add_mul_emod_self_left]
    have hmul : ((((q + 1) * P : Nat) : Int) * 60) = (((q + 1) * P * 60 : Nat) : Int) := by
      push_cast; ring
    rw [hmul]
    norm_cast
    rw [show (86400 : Nat) = 1440 * 60 by norm_num, Nat.mul_mod_mul_right]

/-- Witness for `c6_next_aligned_slot` at P = 30, T = 14:15. -/
theorem c6_witness :
    (14 * 3600 + 15 * 60 : Int) < get_next_meter_report_time 30 (14 * 3600 + 15 * 60) ∧
    ∃ k : Nat, get_next_meter_report_time 30 (14 * 3600 + 15 * 60) % 86400
      = ((k * 30 % 1440) * 60 : Nat) :=
  c6_next_aligned_slot.1 30 (14 * 3600 + 15 * 60) (by decide)

theorem get_update_interval_pos (now : Int) (jSec : Nat) :
    0 < get_update_interval now jSec := by
  unfold get_update_interval MIN_TIME_BETWEEN_UPDATES
  dsimp only
  omega

/-- A meter whose expected-time computation raises (`none`) is skipped by
the planner's loop wherever it sits in the snapshot. -/
theorem earliestNextAux_skip (off : Int) (mid : Nat) (m : MeterRecord)
    (hm : get_next_update_time off m = none) :
    ∀ (pre post : List (Nat × MeterRecord)) (acc : Option Int),
      earliestNextAux off acc (pre ++ (mid, m) :: post)
        = earliestNextAux off acc (pre ++ post) := by
  intro pre
  induction pre with
  | nil => intro post acc; simp [earliestNextAux, hm]
  | cons hd tl ih =>
    intro post acc
    obtain ⟨i, x⟩ := hd
    simp only [List.cons_append, earliestNextAux]
    cases hx : get_next_update_time off x with
    | none => exact ih post acc
    | some tt =>
      cases acc with
      | none => exact ih post (some tt)
      | some a => exact ih post (some (if tt < a then tt else a))

theorem earliestNextAux_none (off : Int) :
    ∀ (data : List (Nat × MeterRecord)),
      (∀ p ∈ data, get_next_update_time off p.2 = none) →
      ∀ acc, earliestNextAux off acc data = acc := by
  intro data
  induction data with
  | nil => intro _ acc; rfl
  | cons hd tl ih =>
    intro h acc
    obtain ⟨i, x⟩ := hd
    have hx : get_next_update_time off x = none := h (i, x) (by simp)
    simp only [earliestNextAux, hx]
    exact ih (fun p hp => h p (by simp [hp])) acc

/-- C7: the interval planner (1) returns a strictly positive duration for
every snapshot — empty, malformed or otherwise — and any clock/jitter
values, without raising; (2) excludes per-meter any entry whose reading
payload lacks the expected fields (its presence anywhere in the snapshot
does not change the result); (3) falls back to the grid-aligned interval
when no meter yields a usable expected time. -/
theorem c7_plan_interval :
    (∀ (off now : Int) (jSec jSmart : Nat) (data : Snapshot),
        0 < get_smart_update_interval off now jSec jSmart data) ∧
    (∀ (off now : Int) (jSec jSmart : Nat) (pre post : Snapshot) (mid : Nat) (m : MeterRecord),
        get_next_update_time off m = none →
        get_smart_update_interval off now jSec jSmart (pre ++ (mid, m) :: post)
          = get_smart_update_interval off now jSec jSmart (pre ++ post)) ∧
    (∀ (off now : Int) (jSec jSmart : Nat) (data : Snapshot),
        (∀ p ∈ data, get_next_update_time off p.2 = none) →
        get_smart_update_interval off now jSec jSmart data = get_update_interval now jSec) := by
  refine ⟨?_, ?_, ?_⟩
  · intro off now jSec jSmart data
    unfold get_smart_update_interval
    cases he : earliestNextAux off none data with
    | none => exact get_update_interval_pos now jSec
    | some e =>
      dsimp only
      split
      · next hlt =>
        have hj : 0 ≤ (jSmart : Int) := by positivity
        omega
      · exact get_update_interval_pos now jSec
  · intro off now jSec jSmart pre post mid m hm
    unfold get_smart_update_interval
    rw [earliestNextAux_skip off mid m hm pre post none]
  · intro off now jSec jSmart data h
    unfold get_smart_update_interval
    rw [earliestNextAux_none off data h none]

/-- Witness for `c7_plan_interval`: a meter with no merged readings is
excluded (planner result as if absent), and the empty snapshot yields a
positive interval. -/
theorem c7_witness :
    get_smart_update_interval 0 0 0 30 [(5, ⟨0, none, none, none⟩)]
      = get_smart_update_interval 0 0 0 30 [] ∧
    0 < get_smart_update_interval 0 0 0 30 [] :=
  ⟨c7_plan_interval.2.1 0 0 0 30 [] [] 5 ⟨0, none, none, none⟩ rfl,
    c7_plan_interval.1 0 0 0 30 []⟩
